import Mathlib

/-!
Shallow embedding of PyGnuplot (src/PyGnuplot.py): a figure registry that
maps integer ids to gnuplot process handles, a command-dispatch path, and
the data/export helpers.  External effects are made explicit:

* spawning a gnuplot subprocess (`Popen` inside `_GnuPlot.__init__`) is
  modelled by allocating a fresh `procId` from the registry's `nextProc`
  counter, so `nextProc` counts how many processes have been spawned and
  `procId` equality models Python object identity of handles;
* writing to a process's stdin (`print(command, file=proc.stdin)`) is
  modelled by appending the pair `(procId, text-with-newline)` to a
  `written` trace;
* `s` returns the list of lines printed to the data file.

Python's `dict` is modelled as an association list in insertion order with
unique keys; `setdefault(idx, _GnuPlot())` evaluates its default argument
eagerly, exactly as Python does.
-/

/-- `DEFAULT_TERM = "x11"` -/
def DEFAULT_TERM : String := "x11"

/-- `_GnuPlot`: one handle, with its terminal label and the identity of the
subprocess spawned by `Popen` in `__init__`. -/
structure GnuPlot where
  term : String
  procId : Nat
deriving DecidableEq, Repr

/-- `_FigureList`: the registry state.  `nextProc` is the allocator for
process identities (it counts every `_GnuPlot()` construction, i.e. every
`Popen` call). -/
structure FigureList where
  instances : List (Int × GnuPlot)
  current_idx : Int
  current_fig : GnuPlot
  nextProc : Nat
deriving DecidableEq, Repr

/-- Association-list lookup, the embedding of `self.instances[idx]` /
`idx in self.instances`. -/
def lookupKey (l : List (Int × GnuPlot)) (k : Int) : Option GnuPlot :=
  match l with
  | [] => none
  | (k2, g) :: rest => if k2 = k then some g else lookupKey rest k

/-- One step of Python's `max` over an iterable of keys. -/
def maxStep (acc : Option Int) (kv : Int × GnuPlot) : Option Int :=
  match acc with
  | none => some kv.1
  | some m => some (max m kv.1)

/-- `max(self.instances)`: maximum over the dict's keys; `none` when the
dict is empty (Python raises `ValueError` there). -/
def maxKeys (l : List (Int × GnuPlot)) : Option Int :=
  l.foldl maxStep none

/-- `_FigureList.__init__`: seed with one `_GnuPlot()` at key 0, current. -/
def FigureList.init : FigureList :=
  { instances := [(0, ⟨DEFAULT_TERM, 0⟩)]
  , current_idx := 0
  , current_fig := ⟨DEFAULT_TERM, 0⟩
  , nextProc := 1 }

/-- The body of `get_figure` once `idx` is resolved to a concrete key `i`:
`instance = self.instances.setdefault(idx, _GnuPlot())`, then
`self.current_idx = idx`, `self.current_fig = instance`, `return instance`.
The default argument `_GnuPlot()` is constructed (a process is spawned,
`nextProc` advances) in every branch, because Python evaluates arguments
eagerly; when the key exists the fresh handle is discarded and the stored
one is returned, otherwise the fresh handle is inserted at the end. -/
def FigureList.select (fl : FigureList) (i : Int) : GnuPlot × FigureList :=
  let fresh : GnuPlot := ⟨DEFAULT_TERM, fl.nextProc⟩
  match lookupKey fl.instances i with
  | some g =>
    (g, { fl with current_idx := i, current_fig := g,
                  nextProc := fl.nextProc + 1 })
  | none =>
    (fresh, { instances := fl.instances ++ [(i, fresh)]
            , current_idx := i
            , current_fig := fresh
            , nextProc := fl.nextProc + 1 })

/-- `_FigureList.get_figure(idx)`: resolve a missing `idx` to
`max(self.instances) + 1` (`none` models the `ValueError` raised by `max`
on an empty dict) and run the `setdefault` body `FigureList.select`. -/
def FigureList.get_figure (fl : FigureList) (idx : Option Int) :
    Option (GnuPlot × FigureList) :=
  match idx with
  | some i => some (fl.select i)
  | none =>
    match maxKeys fl.instances with
    | none => none
    | some m => some (fl.select (m + 1))

/-- The module-level state: the global registry `fl` plus the trace of
everything written to the gnuplot processes' stdin streams. -/
structure PState where
  fl : FigureList
  written : List (Nat × String)
deriving DecidableEq, Repr

/-- The state right after `fl = _FigureList()` at import time. -/
def PState.init : PState :=
  { fl := FigureList.init, written := [] }

/-- Python `str` of an optional integer, as used by `"{}".format(number)`:
`str(None) = "None"`. -/
def pystr : Option Int → String
  | none => "None"
  | some i => toString i

/-- `c(command)`: `print(command, file=fl.current_fig.proc.stdin)` writes
`command + "\n"` to the current handle's input stream. -/
def c (st : PState) (command : String) : PState :=
  { st with written :=
      st.written ++ [(st.fl.current_fig.procId, command ++ "\n")] }

/-- `figure(number=None)`: select or create via `fl.get_figure(number)`,
dispatch `"set term {} {}".format(fig.term, number)`, and return `number`
(the argument itself, not the resolved id). -/
def figure (st : PState) (number : Option Int) :
    Option (Option Int × PState) :=
  match st.fl.get_figure number with
  | none => none
  | some (fig, fl2) =>
    let st2 := c { st with fl := fl2 }
      ("set term " ++ fig.term ++ " " ++ pystr number)
    some (number, st2)

/-- Python `zip(*data)`: row `i` exists for `i < min(len(l) for l in data)`
(and `zip()` of no sequences is empty); row `i` collects the `i`-th element
of every sequence. -/
def pyzip (ls : List (List Int)) : List (List Int) :=
  match (ls.map List.length).min? with
  | none => []
  | some n => (List.range n).map (fun i => ls.map (fun l => l.getD i 0))

/-- `s(data, filename)`: the lines printed to the file, one per tuple of
`zip(*data)`; `print(*items, file=fh)` joins the items with single spaces. -/
def s (data : List (List Int)) : List String :=
  (pyzip data).map (fun row => " ".intercalate (row.map toString))

/-- The full byte content of the file written by `s`: each printed line is
terminated by a newline. -/
def sFileContent (data : List (List Int)) : String :=
  String.join ((s data).map (fun line => line ++ "\n"))

/-- `p(filename, width, height, fontsize, term)`: postscript export, four
`c` calls in order. -/
def p (st : PState) (filename : String) (width height fontsize : Int)
    (term : String) : PState :=
  let st := c st ("set term postscript size " ++ toString width ++ "cm, "
    ++ toString height ++ "cm color solid " ++ toString fontsize
    ++ " font \x27Calibri\x27;")
  let st := c st ("set out \x27" ++ filename ++ "\x27;")
  let st := c st "replot;"
  let st := c st ("set term " ++ term ++ "; replot")
  st

/-- `pdf(filename, width, height, fontsize, term)`: pdf export, four `c`
calls in order. -/
def pdf (st : PState) (filename : String) (width height fontsize : Int)
    (term : String) : PState :=
  let st := c st ("set term pdf enhanced size " ++ toString width ++ "cm, "
    ++ toString height ++ "cm color solid fsize " ++ toString fontsize
    ++ " fname \x27Helvetica\x27;")
  let st := c st ("set out \x27" ++ filename ++ "\x27;")
  let st := c st "replot;"
  let st := c st ("set term " ++ term ++ "; replot")
  st

/-- Registry states reachable from the seeded startup state by selection
operations (`get_figure` with any id, present or absent). -/
inductive Reachable : FigureList → Prop
  | seed : Reachable FigureList.init
  | step {st : FigureList} {idx : Option Int} {fig : GnuPlot}
      {st2 : FigureList} : Reachable st →
      st.get_figure idx = some (fig, st2) → Reachable st2

/-! ## Helper lemmas -/

theorem lookupKey_append_self (l : List (Int × GnuPlot)) (k : Int)
    (g : GnuPlot) (h : lookupKey l k = none) :
    lookupKey (l ++ [(k, g)]) k = some g := by
  induction l with
  | nil => simp [lookupKey]
  | cons x xs ih =>
    obtain ⟨k2, g2⟩ := x
    by_cases hx : k2 = k
    · simp [lookupKey, hx] at h
    · simp only [List.cons_append, lookupKey, if_neg hx] at h ⊢
      exact ih h

theorem lookupKey_append_other (l : List (Int × GnuPlot)) (k j : Int)
    (g : GnuPlot) (h : j ≠ k) :
    lookupKey (l ++ [(k, g)]) j = lookupKey l j := by
  induction l with
  | nil => simp [lookupKey, Ne.symm h]
  | cons x xs ih =>
    obtain ⟨k2, g2⟩ := x
    by_cases hx : k2 = j
    · simp [lookupKey, hx]
    · simp only [List.cons_append, lookupKey, if_neg hx]
      exact ih

theorem maxKeys_go_isSome (l : List (Int × GnuPlot)) (m : Int) :
    (l.foldl maxStep (some m)).isSome := by
  induction l generalizing m with
  | nil => rfl
  | cons x xs ih => exact ih (max m x.1)

theorem maxKeys_isSome (l : List (Int × GnuPlot)) (h : l ≠ []) :
    (maxKeys l).isSome := by
  cases l with
  | nil => exact absurd rfl h
  | cons x xs => exact maxKeys_go_isSome xs x.1

theorem get_figure_eq_select (st : FigureList) (idx : Option Int)
    (r : GnuPlot × FigureList) (h : st.get_figure idx = some r) :
    ∃ i, st.select i = r := by
  cases idx with
  | some i => exact ⟨i, by simpa [FigureList.get_figure] using h⟩
  | none =>
    cases hm : maxKeys st.instances with
    | none => simp [FigureList.get_figure, hm] at h
    | some m => exact ⟨m + 1, by simpa [FigureList.get_figure, hm] using h⟩

theorem select_exists (st : FigureList) (i : Int) (g : GnuPlot)
    (h : lookupKey st.instances i = some g) :
    st.select i = (g, { st with
      current_idx := i, current_fig := g,
      nextProc := st.nextProc + 1 }) := by
  simp [FigureList.select, h]

theorem select_new (st : FigureList) (i : Int)
    (h : lookupKey st.instances i = none) :
    st.select i = (⟨DEFAULT_TERM, st.nextProc⟩,
      { instances := st.instances ++ [(i, ⟨DEFAULT_TERM, st.nextProc⟩)]
      , current_idx := i
      , current_fig := ⟨DEFAULT_TERM, st.nextProc⟩
      , nextProc := st.nextProc + 1 }) := by
  simp [FigureList.select, h]

theorem select_invariant (st : FigureList) (i : Int) :
    lookupKey (st.select i).2.instances (st.select i).2.current_idx =
      some (st.select i).2.current_fig ∧
    (st.select i).2.current_fig = (st.select i).1 ∧
    (st.select i).2.current_idx = i := by
  cases hl : lookupKey st.instances i with
  | some g => rw [select_exists st i g hl]; exact ⟨hl, rfl, rfl⟩
  | none =>
    rw [select_new st i hl]
    exact ⟨lookupKey_append_self st.instances i _ hl, rfl, rfl⟩

theorem select_instances_ne_nil (st : FigureList) (i : Int)
    (h : st.instances ≠ []) : (st.select i).2.instances ≠ [] := by
  cases hl : lookupKey st.instances i with
  | some g => rw [select_exists st i g hl]; exact h
  | none => rw [select_new st i hl]; simp

theorem reachable_instances_ne_nil (st : FigureList) (h : Reachable st) :
    st.instances ≠ [] := by
  induction h with
  | seed => simp [FigureList.init]
  | step hr hstep ih =>
    rename_i st1 idx fig st2
    obtain ⟨i, hi⟩ := get_figure_eq_select st1 idx (fig, st2) hstep
    have hne := select_instances_ne_nil st1 i ih
    rw [hi] at hne
    exact hne

theorem get_figure_none_isSome (st : FigureList) (h : st.instances ≠ []) :
    (st.get_figure none).isSome := by
  cases hm : maxKeys st.instances with
  | none =>
    have hs := maxKeys_isSome st.instances h
    rw [hm] at hs
    exact absurd hs (by simp)
  | some m => simp [FigureList.get_figure, hm]

theorem get_figure_spec (st : FigureList) (idx : Option Int)
    (fig : GnuPlot) (st2 : FigureList)
    (h : st.get_figure idx = some (fig, st2)) :
    lookupKey st2.instances st2.current_idx = some st2.current_fig ∧
    st2.current_fig = fig := by
  obtain ⟨i, hi⟩ := get_figure_eq_select st idx (fig, st2) h
  have hinv := select_invariant st i
  rw [hi] at hinv
  exact ⟨hinv.1, hinv.2.1⟩

/-! ## Claim theorems -/

/-- Claim C1 (code-bug exhibit): calling `figure(None)` from the seeded
startup state resolves the new id to 1 and sets `current_idx` to it, and a
second call resolves to 2 — the resolved ids do increase by 1 — but each
call returns its argument `number`, i.e. `None`, not the resolved id,
contradicting the claim (and the function's own docstring). -/
theorem figure_none_returns_argument_not_resolved_id :
    (figure PState.init none).map Prod.fst = some none ∧
    (figure PState.init none).map (fun r => r.2.fl.current_idx) = some 1 ∧
    ((figure PState.init none).bind (fun r => figure r.2 none)).map
      Prod.fst = some none ∧
    ((figure PState.init none).bind (fun r => figure r.2 none)).map
      (fun r => r.2.fl.current_idx) = some 2 :=
  ⟨rfl, rfl, rfl, rfl⟩

/-- Claim C2 (code-bug exhibit): selecting the already-present id 0 returns
the stored handle unchanged and leaves the table unchanged, yet `nextProc`
advances by one: `_GnuPlot()` — a `Popen` process spawn — is evaluated as
`setdefault`'s default argument even though the key exists, so a new
process handle is constructed during the call and then discarded. -/
theorem get_figure_existing_spawns_discarded_process :
    (FigureList.init.get_figure (some 0)).map Prod.fst =
      some FigureList.init.current_fig ∧
    (FigureList.init.get_figure (some 0)).map (fun r => r.2.instances) =
      some FigureList.init.instances ∧
    (FigureList.init.get_figure (some 0)).map (fun r => r.2.nextProc) =
      some (FigureList.init.nextProc + 1) :=
  ⟨rfl, rfl, rfl⟩

/-- Claim C3: `c(cmd)` appends exactly one entry to the write trace — the
bytes of `cmd` followed by a single newline, addressed to the currently
selected handle's input stream — and changes nothing else; in particular
`c("plot sin(x)")` writes exactly `"plot sin(x)\n"`. -/
theorem c_writes_exactly_command_newline (st : PState) (cmd : String) :
    (c st cmd).written =
      st.written ++ [(st.fl.current_fig.procId, cmd ++ "\n")] ∧
    (c st cmd).fl = st.fl ∧
    (c PState.init "plot sin(x)").written = [(0, "plot sin(x)\n")] :=
  ⟨rfl, rfl, rfl⟩

/-- Claim C4: `s([[1,2,3],[4,5,6]], filename)` writes exactly 3 lines,
zipping the equal-length input sequences column-wise: `"1 4"`, `"2 5"`,
`"3 6"` in that order. -/
theorem s_zips_columns_concrete :
    s [[1, 2, 3], [4, 5, 6]] = ["1 4", "2 5", "3 6"] ∧
    (s [[1, 2, 3], [4, 5, 6]]).length = 3 ∧
    sFileContent [[1, 2, 3], [4, 5, 6]] = "1 4\n2 5\n3 6\n" := by
  refine ⟨?_, ?_, ?_⟩ <;> rfl

/-- Claim C5: immediately after any selection (`get_figure` with any id,
present or absent), `current_fig` equals the entry stored at `current_idx`,
and both were updated to the selected/created entry (the returned one). -/
theorem get_figure_invariant (st : FigureList) (idx : Option Int)
    (fig : GnuPlot) (st2 : FigureList)
    (h : st.get_figure idx = some (fig, st2)) :
    lookupKey st2.instances st2.current_idx = some st2.current_fig ∧
    st2.current_fig = fig :=
  get_figure_spec st idx fig st2 h

/-- Concrete registry state after `get_figure(5)` from the seeded state. -/
def flAfter5 : FigureList :=
  { instances := [(0, ⟨DEFAULT_TERM, 0⟩), (5, ⟨DEFAULT_TERM, 1⟩)]
  , current_idx := 5
  , current_fig := ⟨DEFAULT_TERM, 1⟩
  , nextProc := 2 }

/-- Witness for C5 at the concrete input `get_figure(5)` from the seeded
state. -/
theorem get_figure_invariant_witness :
    lookupKey flAfter5.instances flAfter5.current_idx =
      some flAfter5.current_fig ∧
    flAfter5.current_fig = ⟨DEFAULT_TERM, 1⟩ :=
  get_figure_invariant FigureList.init (some 5) ⟨DEFAULT_TERM, 1⟩ flAfter5
    (by decide)

/-- Claim C6: `p` (postscript export) and `pdf` each append exactly four
dispatched lines to the write trace, in fixed order: set-term naming the
output format, set-output naming the filename, replot, and a command
restoring the original terminal followed by replot — all addressed to the
currently selected handle. -/
theorem p_pdf_dispatch_four_commands (st : PState) (fn : String)
    (w hgt fsz : Int) (t : String) :
    (p st fn w hgt fsz t).written = st.written ++
      [ (st.fl.current_fig.procId,
         ("set term postscript size " ++ toString w ++ "cm, "
          ++ toString hgt ++ "cm color solid " ++ toString fsz
          ++ " font \x27Calibri\x27;") ++ "\n")
      , (st.fl.current_fig.procId, ("set out \x27" ++ fn ++ "\x27;") ++ "\n")
      , (st.fl.current_fig.procId, "replot;" ++ "\n")
      , (st.fl.current_fig.procId,
         ("set term " ++ t ++ "; replot") ++ "\n") ] ∧
    (pdf st fn w hgt fsz t).written = st.written ++
      [ (st.fl.current_fig.procId,
         ("set term pdf enhanced size " ++ toString w ++ "cm, "
          ++ toString hgt ++ "cm color solid fsize " ++ toString fsz
          ++ " fname \x27Helvetica\x27;") ++ "\n")
      , (st.fl.current_fig.procId, ("set out \x27" ++ fn ++ "\x27;") ++ "\n")
      , (st.fl.current_fig.procId, "replot;" ++ "\n")
      , (st.fl.current_fig.procId,
         ("set term " ++ t ++ "; replot") ++ "\n") ] := by
  constructor <;> simp [p, pdf, c]

/-- Claim C7: selecting an id `k` that is already a key preserves handle
identity — the very handle stored under `k` before the call is the one
returned and still stored under `k` after the call, and the table is
unchanged. -/
theorem get_figure_existing_preserves_handle (st : FigureList) (k : Int)
    (g : GnuPlot) (h : lookupKey st.instances k = some g) :
    ∃ st2, st.get_figure (some k) = some (g, st2) ∧
      st2.instances = st.instances ∧
      lookupKey st2.instances k = some g := by
  refine ⟨{ st with
    current_idx := k, current_fig := g,
    nextProc := st.nextProc + 1 }, ?_, rfl, h⟩
  simp [FigureList.get_figure, select_exists st k g h]

/-- Witness for C7 at the seeded state with the existing key 0. -/
theorem get_figure_existing_preserves_handle_witness :
    lookupKey FigureList.init.instances 0 = some ⟨DEFAULT_TERM, 0⟩ ∧
    ∃ st2, FigureList.init.get_figure (some 0) =
        some (⟨DEFAULT_TERM, 0⟩, st2) ∧
      st2.instances = FigureList.init.instances ∧
      lookupKey st2.instances 0 = some ⟨DEFAULT_TERM, 0⟩ :=
  ⟨by decide, get_figure_existing_preserves_handle FigureList.init 0
    ⟨DEFAULT_TERM, 0⟩ (by decide)⟩

/-- Claim C8: selecting an id `k` that is not a key inserts exactly one new
entry — at key `k`, with a default-terminal handle, marked current — and
every other key's stored handle is unchanged. -/
theorem get_figure_new_inserts_one_entry (st : FigureList) (k : Int)
    (h : lookupKey st.instances k = none) :
    ∃ st2 fig, st.get_figure (some k) = some (fig, st2) ∧
      fig.term = DEFAULT_TERM ∧
      st2.instances = st.instances ++ [(k, fig)] ∧
      st2.current_idx = k ∧ st2.current_fig = fig ∧
      ∀ j, j ≠ k → lookupKey st2.instances j = lookupKey st.instances j := by
  refine ⟨{ instances := st.instances ++ [(k, ⟨DEFAULT_TERM, st.nextProc⟩)]
          , current_idx := k
          , current_fig := ⟨DEFAULT_TERM, st.nextProc⟩
          , nextProc := st.nextProc + 1 },
    ⟨DEFAULT_TERM, st.nextProc⟩, ?_, rfl, rfl, rfl, rfl, ?_⟩
  · simp [FigureList.get_figure, select_new st k h]
  · intro j hj
    exact lookupKey_append_other st.instances k j ⟨DEFAULT_TERM, st.nextProc⟩ hj

/-- Witness for C8 at the seeded state with the absent key 5. -/
theorem get_figure_new_inserts_one_entry_witness :
    lookupKey FigureList.init.instances 5 = none ∧
    ∃ st2 fig, FigureList.init.get_figure (some 5) = some (fig, st2) ∧
      fig.term = DEFAULT_TERM ∧
      st2.instances = FigureList.init.instances ++ [(5, fig)] ∧
      st2.current_idx = 5 ∧ st2.current_fig = fig ∧
      ∀ j, j ≠ 5 →
        lookupKey st2.instances j = lookupKey FigureList.init.instances j :=
  ⟨by decide, get_figure_new_inserts_one_entry FigureList.init 5 (by decide)⟩

/-- Claim C9: the registry is seeded at startup with exactly one handle at
id 0, marked current; the instances table is non-empty in every state
reachable by selection operations, so `get_figure(None)` never hits the
empty-`max` error branch (its result is always `some`). -/
theorem seeded_registry_max_never_empty (st : FigureList)
    (h : Reachable st) :
    FigureList.init.instances = [(0, FigureList.init.current_fig)] ∧
    FigureList.init.current_idx = 0 ∧
    st.instances ≠ [] ∧
    (st.get_figure none).isSome :=
  ⟨rfl, rfl, reachable_instances_ne_nil st h,
   get_figure_none_isSome st (reachable_instances_ne_nil st h)⟩

/-- Witness for C9 at the seeded startup state itself. -/
theorem seeded_registry_max_never_empty_witness :
    FigureList.init.instances = [(0, FigureList.init.current_fig)] ∧
    FigureList.init.current_idx = 0 ∧
    FigureList.init.instances ≠ [] ∧
    (FigureList.init.get_figure none).isSome :=
  seeded_registry_max_never_empty FigureList.init Reachable.seed

theorem get_figure_current_fig (st : FigureList) (idx : Option Int)
    (fig : GnuPlot) (st2 : FigureList)
    (h : st.get_figure idx = some (fig, st2)) : st2.current_fig = fig :=
  (get_figure_spec st idx fig st2 h).2

/-- Claim C10: every successful `figure(number)` call appends exactly one
dispatched line to the write trace — `"set term {term} {number}"` plus the
newline added by `c` — addressed to the newly-current figure's input
stream; in particular `figure()` (no argument) sends the literal text
`"set term x11 None"`, with Python's `None` formatted into the command. -/
theorem figure_dispatches_one_set_term (st : PState) (number : Option Int)
    (res : Option Int) (st2 : PState)
    (h : figure st number = some (res, st2)) :
    st2.written = st.written ++
      [(st2.fl.current_fig.procId,
        "set term " ++ st2.fl.current_fig.term ++ " "
          ++ pystr number ++ "\n")] ∧
    (figure PState.init none).map (fun r => r.2.written) =
      some [(1, "set term x11 None\n")] := by
  cases hg : st.fl.get_figure number with
  | none => simp [figure, hg] at h
  | some pr =>
    obtain ⟨fig, fl2⟩ := pr
    have hcf : fl2.current_fig = fig :=
      get_figure_current_fig st.fl number fig fl2 hg
    simp only [figure, hg] at h
    obtain ⟨h1, h2⟩ := Prod.mk.injEq .. ▸ Option.some.inj h
    subst h2
    exact ⟨by simp [c, hcf], rfl⟩

/-- Concrete module state after `figure()` from the startup state. -/
def pstateAfterFigureNone : PState :=
  { fl := { instances := [(0, ⟨DEFAULT_TERM, 0⟩), (1, ⟨DEFAULT_TERM, 1⟩)]
          , current_idx := 1
          , current_fig := ⟨DEFAULT_TERM, 1⟩
          , nextProc := 2 }
  , written := [(1, "set term x11 None\n")] }

/-- Witness for C10 at the concrete call `figure()` from the startup
state. -/
theorem figure_dispatches_one_set_term_witness :
    pstateAfterFigureNone.written = PState.init.written ++
      [(pstateAfterFigureNone.fl.current_fig.procId,
        "set term " ++ pstateAfterFigureNone.fl.current_fig.term ++ " "
          ++ pystr none ++ "\n")] ∧
    (figure PState.init none).map (fun r => r.2.written) =
      some [(1, "set term x11 None\n")] :=
  figure_dispatches_one_set_term PState.init none none pstateAfterFigureNone
    (by decide)
